import Mathlib

/-!
Verification of the date/time core of the repository (exchangelib `ewsdatetime.py`):
`EWSDate`, `EWSDateTime` and `EWSTimeZone`, together with their textual codec
(`ewsformat` / `from_string`), the vendor-id registry (`from_ms_id`), equality
(`__eq__` on `EWSTimeZone`, inherited CPython `datetime.__eq__` on `EWSDateTime`),
fold disambiguation (`localize`) and arithmetic (`__add__` / `__sub__`).

The calendar arithmetic (`ymd2ord` / `ord2ymd`) is the proleptic Gregorian
algorithm of CPython's `datetime` module (`_ymd2ord` / `_ord2ymd`), which is the
arithmetic the source classes inherit.  Timestamps are microsecond counts from
0001-01-01T00:00:00 (`ymd2ord 1 1 1 = 1` as in CPython ordinals).

The IANA/Windows mapping tables, the platform tz database and the local zone are
data assets of the repository that are not part of the source file; they are
modelled from the spec (see the definitions marked `Modelled from the spec:`).
-/

/-- The `_DAYS_BEFORE_MONTH` table of CPython `datetime` (0 for month 1, … 334 for
month 12); out-of-range months map to 0, which is never reached by callers. -/
def DAYS_BEFORE_MONTH (m : Nat) : Nat :=
  match m with
  | 1 => 0 | 2 => 31 | 3 => 59 | 4 => 90 | 5 => 120 | 6 => 151
  | 7 => 181 | 8 => 212 | 9 => 243 | 10 => 273 | 11 => 304 | 12 => 334
  | _ => 0

/-- The `_DAYS_IN_MONTH` table of CPython `datetime` (non-leap February is 28). -/
def DAYS_IN_MONTH (m : Nat) : Nat :=
  match m with
  | 1 => 31 | 2 => 28 | 3 => 31 | 4 => 30 | 5 => 31 | 6 => 30
  | 7 => 31 | 8 => 31 | 9 => 30 | 10 => 31 | 11 => 30 | 12 => 31
  | _ => 0

/-- CPython `datetime._is_leap`. -/
def isLeap (y : Nat) : Bool := y % 4 == 0 && (y % 100 != 0 || y % 400 == 0)

/-- CPython `datetime._days_before_year`. -/
def daysBeforeYear (y : Nat) : Nat :=
  (y - 1) * 365 + (y - 1) / 4 - (y - 1) / 100 + (y - 1) / 400

/-- CPython `datetime._days_before_month`. -/
def daysBeforeMonth (y m : Nat) : Nat :=
  DAYS_BEFORE_MONTH m + (if 2 < m ∧ isLeap y = true then 1 else 0)

/-- CPython `datetime._ymd2ord`: proleptic Gregorian ordinal of a date
(`ymd2ord 1 1 1 = 1`). -/
def ymd2ord (y m d : Nat) : Nat := daysBeforeYear y + daysBeforeMonth y m + d

/-- CPython `datetime._ord2ymd`: date from a proleptic Gregorian ordinal,
including the year-boundary corrections (`n1 == 4 or n100 == 4`) and the
month-estimate/correction step of the original. -/
def ord2ymd (nn : Nat) : Nat × Nat × Nat :=
  let n0 := nn - 1
  let n400 := n0 / 146097
  let r400 := n0 % 146097
  let n100 := r400 / 36524
  let r100 := r400 % 36524
  let n4 := r100 / 1461
  let r4 := r100 % 1461
  let n1 := r4 / 365
  let n := r4 % 365
  let year := n400 * 400 + n100 * 100 + n4 * 4 + n1 + 1
  if n1 = 4 ∨ n100 = 4 then (year - 1, 12, 31)
  else
    let leap : Bool := n1 == 3 && (n4 != 24 || n100 == 3)
    let month := (n + 50) / 32
    let preceding := DAYS_BEFORE_MONTH month + (if 2 < month ∧ leap = true then 1 else 0)
    if n < preceding then
      let m2 := month - 1
      let prec2 := preceding - (DAYS_IN_MONTH m2 + (if m2 = 2 ∧ leap = true then 1 else 0))
      (year, m2, n - prec2 + 1)
    else (year, month, n - preceding + 1)

/-- Number of days of month `m` in year `y` (CPython `datetime._days_in_month`). -/
def daysInMonth (y m : Nat) : Nat :=
  DAYS_IN_MONTH m + (if m = 2 ∧ isLeap y = true then 1 else 0)

/-- A wall-clock reading: the seven value fields of a Python `datetime`
(without `tzinfo` and `fold`). -/
structure Naive where
  year : Nat
  month : Nat
  day : Nat
  hour : Nat
  minute : Nat
  second : Nat
  microsecond : Nat
deriving DecidableEq, Repr

/-- The range constraints enforced by the Python `datetime` constructor
(`MINYEAR = 1`, `MAXYEAR = 9999`, month/day/time field bounds). -/
def validNaive (n : Naive) : Prop :=
  1 ≤ n.year ∧ n.year ≤ 9999 ∧ 1 ≤ n.month ∧ n.month ≤ 12 ∧
  1 ≤ n.day ∧ n.day ≤ daysInMonth n.year n.month ∧
  n.hour ≤ 23 ∧ n.minute ≤ 59 ∧ n.second ≤ 59 ∧ n.microsecond ≤ 999999

instance (n : Naive) : Decidable (validNaive n) := by unfold validNaive; infer_instance

/-- The range constraints of the Python `date` constructor. -/
def validYmd (y m d : Nat) : Prop :=
  1 ≤ y ∧ y ≤ 9999 ∧ 1 ≤ m ∧ m ≤ 12 ∧ 1 ≤ d ∧ d ≤ daysInMonth y m

instance (y m d : Nat) : Decidable (validYmd y m d) := by unfold validYmd; infer_instance

/-- Microseconds from 0001-01-01T00:00:00 to a wall-clock reading. -/
def usOfNaive (n : Naive) : Nat :=
  (ymd2ord n.year n.month n.day - 1) * 86400000000 +
    ((n.hour * 60 + n.minute) * 60 + n.second) * 1000000 + n.microsecond

/-- Wall-clock reading of a microsecond count from 0001-01-01T00:00:00. -/
def usToNaive (t : Nat) : Naive :=
  let c := ord2ymd (t / 86400000000 + 1)
  let rem := t % 86400000000
  ⟨c.1, c.2.1, c.2.2, rem / 3600000000, rem % 3600000000 / 60000000,
    rem % 60000000 / 1000000, rem % 1000000⟩

/-- One more than the microsecond timestamp of `datetime.max`
(9999-12-31T23:59:59.999999); Python raises `OverflowError` outside
`[0, usMax)`. -/
def usMax : Nat := 3652059 * 86400000000

/-- A timezone identity as built by `EWSTimeZone`: the IANA key (`ZoneInfo.key`)
and the Microsoft timezone id derived from it (`ms_id`).  The constant `ms_name`
attribute (always `''` in the source) is omitted. -/
structure EWSTimeZone where
  key : String
  ms_id : String
deriving DecidableEq, Repr

/-- The `tzinfo` values distinguished by the source (`EWSDateTime.from_datetime`
dispatches on the implementation's module): an `EWSTimeZone`, a plain
`datetime.timezone` fixed offset, a `pytz` zone (carrying its `.zone` key), a
`dateutil` zone (carrying its `._filename`), or a plain
`zoneinfo`/`backports.zoneinfo` zone (carrying its `.key`). -/
inductive Tzinfo where
  | ews (z : EWSTimeZone)
  | fixedOffset (minutes : Int)
  | pytz (zone : String)
  | dateutil (filename : String)
  | zoneinfoRaw (key : String)
deriving DecidableEq, Repr

/-- A plain `datetime.datetime` value (exact base type). -/
structure PyDatetime where
  n : Naive
  tzinfo : Option Tzinfo
  fold : Bool
deriving DecidableEq, Repr

/-- An `EWSDateTime` value (the subclass).  The `tzinfo` field keeps the full
`Tzinfo` type because the keyword-only constructor check can be bypassed by a
positional `tzinfo` argument (see `EWSDateTime.new`). -/
structure EWSDateTime where
  n : Naive
  tzinfo : Option Tzinfo
  fold : Bool
deriving DecidableEq, Repr

/-- A plain `datetime.date` value (exact base type). -/
structure PyDate where
  year : Nat
  month : Nat
  day : Nat
deriving DecidableEq, Repr

/-- An `EWSDate` value (the subclass). -/
structure EWSDate where
  year : Nat
  month : Nat
  day : Nat
deriving DecidableEq, Repr

/-- The exceptions raised by the source: `UnknownTimeZone` and
`NaiveDateTimeNotAllowed` from `exchangelib.errors` (the latter carries the
parsed naive `EWSDateTime`), plus the Python builtins it raises or propagates
(`ValueError`, `TypeError`, `OverflowError`, `AttributeError`). -/
inductive Err where
  | unknownTimeZone (msg : String)
  | naiveDateTimeNotAllowed (local_dt : EWSDateTime)
  | valueError (msg : String)
  | typeError (msg : String)
  | overflowError
  | attributeError (msg : String)
deriving DecidableEq, Repr

/-- Modelled from the spec: the platform tz database keys recognized by
`zoneinfo.ZoneInfo` (`src` holds no tz data; §4.2 treats the platform tz source
as an injected read-only asset).  A representative subset suffices: the claims
only exercise `UTC` and the two CET keys. -/
def zoneinfoKeys : List String := ["UTC", "Europe/Copenhagen", "Europe/Paris"]

/-- Modelled from the spec: `IANA_TO_MS_TIMEZONE_MAP` of `winzone.py` (not under
`src`), restricted to the keys above; the value is the first (canonical) vendor
id of the table entry (§3: `ianaToVendor`, first entry canonical).  Both CET
keys collapse to the same vendor id, as the spec's equality law requires. -/
def IANA_TO_MS_TIMEZONE_MAP : List (String × String) :=
  [("UTC", "UTC"),
   ("Europe/Copenhagen", "Romance Standard Time"),
   ("Europe/Paris", "Romance Standard Time")]

/-- Modelled from the spec: `MS_TIMEZONE_TO_IANA_MAP` of `winzone.py` (not under
`src`), restricted likewise (§3: `vendorToIana`, partial).  It has no entry for
`"Europe/Copenhagen"` (an IANA-style key, exercising the slash fallback of
§4.2) nor for `"Nonexistent Standard Time"`. -/
def MS_TIMEZONE_TO_IANA_MAP : List (String × String) :=
  [("UTC", "UTC"),
   ("Romance Standard Time", "Europe/Paris")]

/-- Modelled from the spec: the CET/CEST UTC offset (minutes) of
`Europe/Copenhagen` / `Europe/Paris` for wall-clock times, with the 2020 DST
transitions (spring gap 2020-03-29 02:00→03:00, autumn fold 2020-10-25
03:00→02:00) and PEP 495 fold semantics; other years are modelled at the
standard offset, which is all the claims exercise outside 2020. -/
def cetOffsetMin (n : Naive) (fold : Bool) : Int :=
  if n.year ≠ 2020 then 60
  else
    let r := usOfNaive n
    if r < usOfNaive ⟨2020, 3, 29, 2, 0, 0, 0⟩ then 60
    else if r < usOfNaive ⟨2020, 3, 29, 3, 0, 0, 0⟩ then (if fold then 120 else 60)
    else if r < usOfNaive ⟨2020, 10, 25, 2, 0, 0, 0⟩ then 120
    else if r < usOfNaive ⟨2020, 10, 25, 3, 0, 0, 0⟩ then (if fold then 60 else 120)
    else 60

/-- Modelled from the spec: `ZoneInfo.utcoffset` (minutes) for the modelled tz
database, keyed by IANA key; unknown keys are mapped to 0 (never reached through
registry-constructed zones). -/
def zoneUtcOffsetMin (key : String) (n : Naive) (fold : Bool) : Int :=
  if key = "UTC" then 0
  else if key = "Europe/Copenhagen" ∨ key = "Europe/Paris" then cetOffsetMin n fold
  else 0

/-- Modelled from the spec: `ZoneInfo.dst` (minutes) for the modelled tz
database. -/
def zoneDstMin (key : String) (n : Naive) (fold : Bool) : Int :=
  if key = "UTC" then 0
  else if key = "Europe/Copenhagen" ∨ key = "Europe/Paris" then cetOffsetMin n fold - 60
  else 0

/-- `EWSTimeZone.__new__`: resolve the IANA key against the platform tz source
(`ZoneInfoNotFoundError` is re-raised as `UnknownTimeZone`), then derive `ms_id`
as the first element of the `IANA_TO_MS_TIMEZONE_MAP` entry (a missing entry is
also `UnknownTimeZone`). -/
def EWSTimeZone.new (key : String) : Except Err EWSTimeZone :=
  if zoneinfoKeys.contains key then
    match IANA_TO_MS_TIMEZONE_MAP.lookup key with
    | some ms => .ok ⟨key, ms⟩
    | none =>
        .error (.unknownTimeZone
          ("No Windows timezone name found for timezone \"" ++ key ++ "\""))
  else .error (.unknownTimeZone ("No time zone found with key " ++ key))

/-- `EWSTimeZone.__eq__` between two `EWSTimeZone` values: equality is based on
the Microsoft timezone id only.  (For a non-`EWSTimeZone` operand the source
returns `NotImplemented`; that path is outside the claims.) -/
def EWSTimeZone.beq (a b : EWSTimeZone) : Bool := a.ms_id == b.ms_id

/-- `EWSTimeZone.from_ms_id`: look up the vendor id; on a miss, retry the id
verbatim as an IANA key when it contains a `/`, else fail with
`UnknownTimeZone`. -/
def EWSTimeZone.from_ms_id (ms_id : String) : Except Err EWSTimeZone :=
  match MS_TIMEZONE_TO_IANA_MAP.lookup ms_id with
  | some iana => EWSTimeZone.new iana
  | none =>
      if ms_id.data.contains '/' then EWSTimeZone.new ms_id
      else .error (.unknownTimeZone
        ("Windows timezone ID '" ++ ms_id ++ "' is unknown by CLDR"))

/-- The module-level constant `UTC = EWSTimeZone('UTC')`. -/
def UTC : EWSTimeZone := ⟨"UTC", "UTC"⟩

/-- Modelled from the spec: the zone returned by `EWSTimeZone.localzone()`
(`tzlocal.get_localzone()`, §6 `getLocalTimeZoneKey`), fixed to a concrete
representative since the host configuration is an external input. -/
def localZone : EWSTimeZone := ⟨"Europe/Copenhagen", "Romance Standard Time"⟩

/-- The `.key` attribute access on a `tzinfo` value: present on `EWSTimeZone`
and plain `zoneinfo` zones, an `AttributeError` on the others. -/
def Tzinfo.keyAttr : Tzinfo → Option String
  | .ews z => some z.key
  | .zoneinfoRaw k => some k
  | _ => none

/-- `tzinfo.utcoffset` in minutes for each modelled `tzinfo` implementation
(zone-backed ones consult the modelled tz database by key). -/
def Tzinfo.utcoffsetMin (tz : Tzinfo) (n : Naive) (fold : Bool) : Int :=
  match tz with
  | .ews z => zoneUtcOffsetMin z.key n fold
  | .fixedOffset m => m
  | .pytz zone => zoneUtcOffsetMin zone n fold
  | .dateutil _ => 0
  | .zoneinfoRaw k => zoneUtcOffsetMin k n fold

/-- `tzinfo.utcoffset` in microseconds. -/
def utcoffsetUs (tz : Tzinfo) (n : Naive) (fold : Bool) : Int :=
  tz.utcoffsetMin n fold * 60000000

/-- View an `EWSDateTime` as the plain `datetime` value it subclasses. -/
def EWSDateTime.toBase (t : EWSDateTime) : PyDatetime := ⟨t.n, t.tzinfo, t.fold⟩

/-- CPython `datetime.__eq__` between two (possibly `EWSDateTime`) datetimes,
as inherited by `EWSDateTime` (`datetime._cmp` with `allow_mixed=True`):
naive vs aware compare unequal; with the same `tzinfo` the wall-clock fields
are compared (structural `tzinfo` equality models the CPython `mytz is ottz`
identity test, which coincides on every comparison the claims exercise); with
different `tzinfo`, a value whose UTC offset depends on its fold (a PEP 495
ambiguous or imaginary time) compares unequal to everything, otherwise the
UTC instants are compared. -/
def EWSDateTime.pyEq (a b : EWSDateTime) : Bool :=
  match a.tzinfo, b.tzinfo with
  | none, none => a.n == b.n
  | some ta, some tb =>
      if ta == tb then a.n == b.n
      else if utcoffsetUs ta a.n false != utcoffsetUs ta a.n true then false
      else if utcoffsetUs tb b.n false != utcoffsetUs tb b.n true then false
      else ((usOfNaive a.n : Int) - utcoffsetUs ta a.n a.fold)
             == ((usOfNaive b.n : Int) - utcoffsetUs tb b.n b.fold)
  | _, _ => false

/-- `datetime.__add__` with a `timedelta` of `deltaUs` microseconds: wall-clock
arithmetic, `tzinfo` preserved, result `fold` 0, `OverflowError` outside the
representable range.  The result is the plain base type (the wrapper in
`EWSDateTime.__add__` re-wraps it). -/
def pyDatetimeAddUs (d : PyDatetime) (deltaUs : Int) : Except Err PyDatetime :=
  if 0 ≤ (usOfNaive d.n : Int) + deltaUs ∧ (usOfNaive d.n : Int) + deltaUs < (usMax : Int) then
    .ok ⟨usToNaive ((usOfNaive d.n : Int) + deltaUs).toNat, d.tzinfo, false⟩
  else .error .overflowError

/-- `datetime.__sub__` between two datetimes: a `timedelta` (microseconds);
mixing naive and aware operands raises `TypeError`. -/
def pyDatetimeSubDt (a b : PyDatetime) : Except Err Int :=
  match a.tzinfo, b.tzinfo with
  | none, none => .ok ((usOfNaive a.n : Int) - (usOfNaive b.n : Int))
  | some ta, some tb =>
      .ok (((usOfNaive a.n : Int) - utcoffsetUs ta a.n a.fold) -
           ((usOfNaive b.n : Int) - utcoffsetUs tb b.n b.fold))
  | _, _ => .error (.typeError "can't subtract offset-naive and offset-aware datetimes")

/-- `EWSDateTime.from_datetime`: adapt a plain `datetime` (exact base type, per
the `type(d) != datetime.datetime` check, here enforced by the argument type).
A naive input stays naive; an `EWSTimeZone` passes through; `pytz`, `dateutil`
and plain-`zoneinfo` tzinfos are converted through `EWSTimeZone` construction
(`from_pytz` uses `.zone`, `from_dateutil` the last two path segments of
`._filename`); anything else raises `ValueError`.  The result is built by
`cls(..., tzinfo=tz)`, so `fold` is reset to 0. -/
def EWSDateTime.from_datetime (d : PyDatetime) : Except Err EWSDateTime :=
  match d.tzinfo with
  | none => .ok ⟨d.n, none, false⟩
  | some (.ews z) => .ok ⟨d.n, some (.ews z), false⟩
  | some (.pytz zone) =>
      (EWSTimeZone.new zone).map fun z => ⟨d.n, some (.ews z), false⟩
  | some (.dateutil filename) =>
      let key := String.intercalate "/" ((filename.splitOn "/").reverse.take 2).reverse
      (EWSTimeZone.new key).map fun z => ⟨d.n, some (.ews z), false⟩
  | some (.zoneinfoRaw k) =>
      (EWSTimeZone.new k).map fun z => ⟨d.n, some (.ews z), false⟩
  | some (.fixedOffset _) => .error (.valueError "Unsupported tzinfo value: %r")

/-- `EWSDateTime.__new__`: the source checks only `kwargs.get('tzinfo')`, so the
`ValueError` fires only when the tzinfo argument is passed as a keyword
(`tzKeyword = true`) and is neither `None` nor an `EWSTimeZone`; a positional
tzinfo argument reaches `datetime.__new__` unchecked. -/
def EWSDateTime.new (n : Naive) (tz : Option Tzinfo) (tzKeyword : Bool) :
    Except Err EWSDateTime :=
  let isAllowed : Bool := match tz with
    | none => true
    | some (.ews _) => true
    | some _ => false
  if tzKeyword && !isAllowed then .error (.valueError "tzinfo must be an EWSTimeZone instance")
  else .ok ⟨n, tz, false⟩

/-- `EWSDateTime.__add__` (timedelta in microseconds): the base-class result is
re-wrapped through `from_datetime` ("We want to return EWSDateTime objects"). -/
def EWSDateTime.add (t : EWSDateTime) (deltaUs : Int) : Except Err EWSDateTime :=
  match pyDatetimeAddUs t.toBase deltaUs with
  | .ok b => EWSDateTime.from_datetime b
  | .error e => .error e

/-- `EWSDateTime.__sub__` with a `timedelta` argument (microseconds): the
base-class result (wall-clock subtraction) is re-wrapped through
`from_datetime`. -/
def EWSDateTime.sub_timedelta (t : EWSDateTime) (deltaUs : Int) : Except Err EWSDateTime :=
  match pyDatetimeAddUs t.toBase (-deltaUs) with
  | .ok b => EWSDateTime.from_datetime b
  | .error e => .error e

/-- `EWSDateTime.__sub__` with a datetime argument: the base class already
returns a `timedelta`, which the wrapper passes through unchanged. -/
def EWSDateTime.sub_datetime (t u : EWSDateTime) : Except Err Int :=
  pyDatetimeSubDt t.toBase u.toBase

/-- The UTC offset used by `astimezone`: an aware value's own offset; a naive
value is interpreted in the platform local zone (the modelled `localZone`). -/
def pyDatetimeOffsetUs (d : PyDatetime) : Int :=
  match d.tzinfo with
  | some tz => utcoffsetUs tz d.n d.fold
  | none => utcoffsetUs (.ews localZone) d.n d.fold

/-- `datetime.astimezone(UTC)` as used by `EWSDateTime.from_string`: an aware
value is converted through its own offset, a naive value through the platform
local zone; conversion outside the representable range raises `OverflowError`. -/
def pyDatetimeAstimezoneUTC (d : PyDatetime) : Except Err PyDatetime :=
  if 0 ≤ (usOfNaive d.n : Int) - pyDatetimeOffsetUs d ∧
      (usOfNaive d.n : Int) - pyDatetimeOffsetUs d < (usMax : Int) then
    .ok ⟨usToNaive ((usOfNaive d.n : Int) - pyDatetimeOffsetUs d).toNat, some (.ews UTC), false⟩
  else .error .overflowError

/-- `EWSTimeZone.localize`: reject aware input; attach the zone; when `is_dst`
is not `None` and the DST offsets of the two folds differ, pick the fold whose
DST offset is the larger one iff `is_dst` ("DST dates are assumed to always be
after non-DST dates"). -/
def EWSTimeZone.localize (z : EWSTimeZone) (dt : EWSDateTime) (is_dst : Option Bool) :
    Except Err EWSDateTime :=
  if dt.tzinfo.isSome then .error (.valueError "%r must be timezone-unaware")
  else
    match is_dst with
    | none => .ok ⟨dt.n, some (.ews z), dt.fold⟩
    | some b =>
        let dst_before := zoneDstMin z.key dt.n false
        let dst_after := zoneDstMin z.key dt.n true
        if dst_after < dst_before then
          .ok ⟨dt.n, some (.ews z), if b then false else true⟩
        else if dst_before < dst_after then
          .ok ⟨dt.n, some (.ews z), if b then true else false⟩
        else .ok ⟨dt.n, some (.ews z), dt.fold⟩

/-- The zone states of the spec's data model (§3): a TimestampValue is either
fully unzoned or zoned with a registry-issued `EWSTimeZone`. -/
def specZone (tz : Option Tzinfo) : Prop :=
  tz = none ∨ ∃ z : EWSTimeZone, tz = some (.ews z)

/-- Numeric value of a decimal digit character. -/
def digitVal (c : Char) : Nat := c.toNat - 48

/-- Exactly two decimal digits (the fixed-width fields of
`datetime.fromisoformat`). -/
def read2 : List Char → Option (Nat × List Char)
  | c1 :: c2 :: rest =>
      if c1.isDigit && c2.isDigit then some (digitVal c1 * 10 + digitVal c2, rest) else none
  | _ => none

/-- Exactly four decimal digits (the `%Y` field of `_strptime.TimeRE`, regex
`\d\d\d\d`, and the year field of `fromisoformat`). -/
def read4 : List Char → Option (Nat × List Char)
  | c1 :: c2 :: c3 :: c4 :: rest =>
      if c1.isDigit && c2.isDigit && c3.isDigit && c4.isDigit then
        some (digitVal c1 * 1000 + digitVal c2 * 100 + digitVal c3 * 10 + digitVal c4, rest)
      else none
  | _ => none

/-- The `%m` field of `_strptime.TimeRE` (regex `1[0-2]|0[1-9]|[1-9]`),
alternatives tried left to right. -/
def readMonthL : List Char → Option (Nat × List Char)
  | c1 :: c2 :: rest =>
      if c1 = '1' ∧ c2.isDigit = true ∧ digitVal c2 ≤ 2 then some (10 + digitVal c2, rest)
      else if c1 = '0' ∧ c2.isDigit = true ∧ 1 ≤ digitVal c2 then some (digitVal c2, rest)
      else if c1.isDigit = true ∧ 1 ≤ digitVal c1 then some (digitVal c1, c2 :: rest)
      else none
  | [c1] => if c1.isDigit = true ∧ 1 ≤ digitVal c1 then some (digitVal c1, []) else none
  | [] => none

/-- The `%d` field of `_strptime.TimeRE` (regex `3[01]|[12]\d|0[1-9]|[1-9]`). -/
def readDayL : List Char → Option (Nat × List Char)
  | c1 :: c2 :: rest =>
      if c1 = '3' ∧ (c2 = '0' ∨ c2 = '1') then some (30 + digitVal c2, rest)
      else if (c1 = '1' ∨ c1 = '2') ∧ c2.isDigit = true then
        some (digitVal c1 * 10 + digitVal c2, rest)
      else if c1 = '0' ∧ c2.isDigit = true ∧ 1 ≤ digitVal c2 then some (digitVal c2, rest)
      else if c1.isDigit = true ∧ 1 ≤ digitVal c1 then some (digitVal c1, c2 :: rest)
      else none
  | [c1] => if c1.isDigit = true ∧ 1 ≤ digitVal c1 then some (digitVal c1, []) else none
  | [] => none

/-- The `%H` field of `_strptime.TimeRE` (regex `2[0-3]|[0-1]\d|\d`). -/
def readHourL : List Char → Option (Nat × List Char)
  | c1 :: c2 :: rest =>
      if c1 = '2' ∧ c2.isDigit = true ∧ digitVal c2 ≤ 3 then some (20 + digitVal c2, rest)
      else if (c1 = '0' ∨ c1 = '1') ∧ c2.isDigit = true then
        some (digitVal c1 * 10 + digitVal c2, rest)
      else if c1.isDigit = true then some (digitVal c1, c2 :: rest)
      else none
  | [c1] => if c1.isDigit = true then some (digitVal c1, []) else none
  | [] => none

/-- The `%M` and `%S` fields of `_strptime.TimeRE` (regex `[0-5]\d|\d`). -/
def readMinSecL : List Char → Option (Nat × List Char)
  | c1 :: c2 :: rest =>
      if c1.isDigit = true ∧ digitVal c1 ≤ 5 ∧ c2.isDigit = true then
        some (digitVal c1 * 10 + digitVal c2, rest)
      else if c1.isDigit = true then some (digitVal c1, c2 :: rest)
      else none
  | [c1] => if c1.isDigit = true then some (digitVal c1, []) else none
  | [] => none

/-- `datetime.strptime(s, '%Y-%m-%dZ')` followed by the `date`-constructor range
check, returning year/month/day. -/
def strptimeDateZ (cs : List Char) : Option (Nat × Nat × Nat) :=
  match read4 cs with
  | some (y, '-' :: r1) =>
      match readMonthL r1 with
      | some (m, '-' :: r2) =>
          match readDayL r2 with
          | some (d, ['Z']) => if validYmd y m d then some (y, m, d) else none
          | _ => none
      | _ => none
  | _ => none

/-- `datetime.strptime(s, '%Y-%m-%d+%H:%M')`, truncated to the date component
(the parsed hour/minute are validated by the regex, then discarded by
`dt.date()`). -/
def strptimeDatePlus (cs : List Char) : Option (Nat × Nat × Nat) :=
  match read4 cs with
  | some (y, '-' :: r1) =>
      match readMonthL r1 with
      | some (m, '-' :: r2) =>
          match readDayL r2 with
          | some (d, '+' :: r3) =>
              match readHourL r3 with
              | some (_, ':' :: r4) =>
                  match readMinSecL r4 with
                  | some (_, []) => if validYmd y m d then some (y, m, d) else none
                  | _ => none
              | _ => none
          | _ => none
      | _ => none
  | _ => none

/-- `datetime.strptime(s, '%Y-%m-%d-%H:%M')`, truncated to the date component. -/
def strptimeDateMinus (cs : List Char) : Option (Nat × Nat × Nat) :=
  match read4 cs with
  | some (y, '-' :: r1) =>
      match readMonthL r1 with
      | some (m, '-' :: r2) =>
          match readDayL r2 with
          | some (d, '-' :: r3) =>
              match readHourL r3 with
              | some (_, ':' :: r4) =>
                  match readMinSecL r4 with
                  | some (_, []) => if validYmd y m d then some (y, m, d) else none
                  | _ => none
              | _ => none
          | _ => none
      | _ => none
  | _ => none

/-- `datetime.strptime(s, '%Y-%m-%d')` followed by the constructor range check. -/
def strptimeDateBare (cs : List Char) : Option (Nat × Nat × Nat) :=
  match read4 cs with
  | some (y, '-' :: r1) =>
      match readMonthL r1 with
      | some (m, '-' :: r2) =>
          match readDayL r2 with
          | some (d, []) => if validYmd y m d then some (y, m, d) else none
          | _ => none
      | _ => none
  | _ => none

/-- `datetime.strptime(s, '%Y-%m-%dT%H:%M:%S')` followed by the constructor
range check. -/
def strptimeDt19 (cs : List Char) : Option Naive :=
  match read4 cs with
  | some (y, '-' :: r1) =>
      match readMonthL r1 with
      | some (m, '-' :: r2) =>
          match readDayL r2 with
          | some (d, 'T' :: r3) =>
              match readHourL r3 with
              | some (h, ':' :: r4) =>
                  match readMinSecL r4 with
                  | some (mi, ':' :: r5) =>
                      match readMinSecL r5 with
                      | some (s, []) =>
                          if validNaive ⟨y, m, d, h, mi, s, 0⟩ then some ⟨y, m, d, h, mi, s, 0⟩
                          else none
                      | _ => none
                  | _ => none
              | _ => none
          | _ => none
      | _ => none
  | _ => none

/-- `datetime.strptime(s, '%Y-%m-%dT%H:%M:%SZ')` followed by the constructor
range check. -/
def strptimeDtZ (cs : List Char) : Option Naive :=
  match read4 cs with
  | some (y, '-' :: r1) =>
      match readMonthL r1 with
      | some (m, '-' :: r2) =>
          match readDayL r2 with
          | some (d, 'T' :: r3) =>
              match readHourL r3 with
              | some (h, ':' :: r4) =>
                  match readMinSecL r4 with
                  | some (mi, ':' :: r5) =>
                      match readMinSecL r5 with
                      | some (s, ['Z']) =>
                          if validNaive ⟨y, m, d, h, mi, s, 0⟩ then some ⟨y, m, d, h, mi, s, 0⟩
                          else none
                      | _ => none
                  | _ => none
              | _ => none
          | _ => none
      | _ => none
  | _ => none

/-- Value of a digit run read as a decimal number. -/
def digitsToNat (cs : List Char) : Nat := cs.foldl (fun a c => a * 10 + digitVal c) 0

/-- The `±HH:MM` offset suffix of `datetime.fromisoformat`, in absolute minutes
(offset-seconds variants are accepted by Python but never produced or consumed
by the source's formats and are out of scope). -/
def parseOffsetHm (cs : List Char) : Option Nat :=
  match read2 cs with
  | some (hh, ':' :: r1) =>
      match read2 r1 with
      | some (mm, []) => if hh ≤ 23 ∧ mm ≤ 59 then some (hh * 60 + mm) else none
      | _ => none
  | _ => none

/-- The optional timezone tail of `datetime.fromisoformat`: empty (naive), or a
signed `HH:MM` offset in minutes. -/
def parseTzTail : List Char → Option (Option Int)
  | [] => some none
  | '+' :: r => (parseOffsetHm r).map fun m => some (Int.ofNat m)
  | '-' :: r => (parseOffsetHm r).map fun m => some (-(Int.ofNat m : Int))
  | _ => none

/-- Build the `fromisoformat` result after field parsing: the constructor range
check, then a naive value or one carrying a `datetime.timezone` fixed offset. -/
def mkIsoResult (y mo d h mi s us : Nat) (tzo : Option Int) : Option PyDatetime :=
  if validNaive ⟨y, mo, d, h, mi, s, us⟩ then
    some ⟨⟨y, mo, d, h, mi, s, us⟩, tzo.map Tzinfo.fixedOffset, false⟩
  else none

/-- The time-and-offset part of `datetime.fromisoformat` (`_parse_isoformat_time`):
`HH`, `HH:MM`, `HH:MM:SS`, `HH:MM:SS.fff`, `HH:MM:SS.ffffff`, each optionally
followed by a signed offset. -/
def parseIsoTime (y mo d : Nat) (tstr : List Char) : Option PyDatetime :=
  match read2 tstr with
  | some (h, ':' :: r2) =>
      match read2 r2 with
      | some (mi, ':' :: r3) =>
          match read2 r3 with
          | some (s, rest3) =>
              if rest3.head? = some '.' then
                let r4 := rest3.tail
                let ds := r4.takeWhile Char.isDigit
                let r5 := r4.dropWhile Char.isDigit
                match parseTzTail r5 with
                | some tzo =>
                    if ds.length = 3 then mkIsoResult y mo d h mi s (digitsToNat ds * 1000) tzo
                    else if ds.length = 6 then mkIsoResult y mo d h mi s (digitsToNat ds) tzo
                    else none
                | none => none
              else
                match parseTzTail rest3 with
                | some tzo => mkIsoResult y mo d h mi s 0 tzo
                | none => none
          | none => none
      | some (mi, rest2) =>
          match parseTzTail rest2 with
          | some tzo => mkIsoResult y mo d h mi 0 0 tzo
          | none => none
      | none => none
  | some (h, rest) =>
      match parseTzTail rest with
      | some tzo => mkIsoResult y mo d h 0 0 0 tzo
      | none => none
  | none => none

/-- `datetime.fromisoformat`: a `YYYY-MM-DD` date, optionally followed by one
separator character (any character, as in CPython) and a time-and-offset part. -/
def fromisoChars (cs : List Char) : Option PyDatetime :=
  match read4 cs with
  | some (y, '-' :: r1) =>
      match read2 r1 with
      | some (mo, '-' :: r2) =>
          match read2 r2 with
          | some (d, []) => mkIsoResult y mo d 0 0 0 0 none
          | some (d, _sep :: tstr) => parseIsoTime y mo d tstr
          | none => none
      | _ => none
  | _ => none

/-- Two-digit zero-padded decimal rendering (`%02d`). -/
def pad2 (n : Nat) : List Char := [Char.ofNat (48 + n / 10 % 10), Char.ofNat (48 + n % 10)]

/-- Four-digit zero-padded decimal rendering (`%04d`, the year field of
`isoformat`/`strftime` for the in-range years). -/
def pad4 (n : Nat) : List Char :=
  [Char.ofNat (48 + n / 1000 % 10), Char.ofNat (48 + n / 100 % 10),
   Char.ofNat (48 + n / 10 % 10), Char.ofNat (48 + n % 10)]

/-- The `YYYY-MM-DD` rendering (`date.isoformat`). -/
def dateChars (y m d : Nat) : List Char :=
  pad4 y ++ '-' :: (pad2 m ++ '-' :: pad2 d)

/-- The `YYYY-MM-DDTHH:MM:SS` rendering shared by `strftime('%Y-%m-%dT%H:%M:%S…')`
and `datetime.isoformat` (called with `microsecond=0`, so no fraction). -/
def basicChars (n : Naive) : List Char :=
  dateChars n.year n.month n.day ++
    'T' :: (pad2 n.hour ++ ':' :: (pad2 n.minute ++ ':' :: pad2 n.second))

/-- `strftime('%Y-%m-%dT%H:%M:%SZ')` (no subsecond directive: the microsecond
field is simply not rendered). -/
def fmtZChars (n : Naive) : List Char := basicChars n ++ ['Z']

/-- The `±HH:MM` offset suffix of `datetime.isoformat` for a whole-minute
offset (sign, then the absolute value split by `divmod`). -/
def offsetChars (off : Int) : List Char :=
  (if off < 0 then '-' else '+') :: (pad2 (off.natAbs / 60) ++ ':' :: pad2 (off.natAbs % 60))

/-- `datetime.isoformat` of an aware value with zero microseconds and a
whole-minute offset. -/
def isoChars (n : Naive) (off : Int) : List Char := basicChars n ++ offsetChars off

/-- `EWSDate.ewsformat` = `date.isoformat`. -/
def EWSDate.ewsformat (d : EWSDate) : String := String.mk (dateChars d.year d.month d.day)

/-- `EWSDate.from_date`: rebuild the value as the subclass (`cls(d.year, d.month,
d.day)`); the `type(d) != datetime.date` guard is enforced by the argument type. -/
def EWSDate.from_date (d : PyDate) : EWSDate := ⟨d.year, d.month, d.day⟩

/-- View an `EWSDate` as the plain `date` it subclasses. -/
def EWSDate.toBase (d : EWSDate) : PyDate := ⟨d.year, d.month, d.day⟩

/-- `date.__add__` with a `timedelta` of `deltaUs` microseconds: only the day
component of the (floor-normalized) timedelta participates; out-of-range results
raise `OverflowError`.  The result is the plain base type. -/
def pyDateAddUs (d : PyDate) (deltaUs : Int) : Except Err PyDate :=
  if 1 ≤ (ymd2ord d.year d.month d.day : Int) + Int.fdiv deltaUs 86400000000 ∧
      (ymd2ord d.year d.month d.day : Int) + Int.fdiv deltaUs 86400000000 ≤ 3652059 then
    .ok ⟨(ord2ymd ((ymd2ord d.year d.month d.day : Int) + Int.fdiv deltaUs 86400000000).toNat).1,
      (ord2ymd ((ymd2ord d.year d.month d.day : Int) + Int.fdiv deltaUs 86400000000).toNat).2.1,
      (ord2ymd ((ymd2ord d.year d.month d.day : Int) + Int.fdiv deltaUs 86400000000).toNat).2.2⟩
  else .error .overflowError

/-- `EWSDate.__add__`: the base-class result is re-wrapped through `from_date`
("We want to return EWSDate objects"). -/
def EWSDate.add (d : EWSDate) (deltaUs : Int) : Except Err EWSDate :=
  (pyDateAddUs d.toBase deltaUs).map EWSDate.from_date

/-- `EWSDate.__sub__` with a `timedelta` argument (`self + (-other)`). -/
def EWSDate.sub_timedelta (d : EWSDate) (deltaUs : Int) : Except Err EWSDate :=
  (pyDateAddUs d.toBase (-deltaUs)).map EWSDate.from_date

/-- `EWSDate.__sub__` with a `date` argument: the base class returns the
`timedelta` (here in microseconds), which the wrapper passes through. -/
def EWSDate.sub_date (a b : EWSDate) : Int :=
  ((ymd2ord a.year a.month a.day : Int) - (ymd2ord b.year b.month b.day : Int)) * 86400000000

/-- `EWSDate.from_string`: dispatch on a trailing `Z`, then on `':' in s` and
`'+' in s`, trying exactly one `strptime` format; the parsed value is truncated
to its date component (`dt.date()`) and returned as `EWSDate`. -/
def EWSDate.from_string (s : String) : Except Err EWSDate :=
  if s.data.getLast? = some 'Z' then
    match strptimeDateZ s.data with
    | some (y, m, d) => .ok ⟨y, m, d⟩
    | none => .error (.valueError "time data does not match format")
  else if s.data.contains ':' then
    if s.data.contains '+' then
      match strptimeDatePlus s.data with
      | some (y, m, d) => .ok ⟨y, m, d⟩
      | none => .error (.valueError "time data does not match format")
    else
      match strptimeDateMinus s.data with
      | some (y, m, d) => .ok ⟨y, m, d⟩
      | none => .error (.valueError "time data does not match format")
  else
    match strptimeDateBare s.data with
    | some (y, m, d) => .ok ⟨y, m, d⟩
    | none => .error (.valueError "time data does not match format")

/-- `EWSDateTime.ewsformat`: reject unzoned values; emit the compact `…Z` form
when the zone's key is `'UTC'` (`strftime`, microseconds dropped), otherwise
`replace(microsecond=0).isoformat()` with the zone's offset at the value. -/
def EWSDateTime.ewsformat (t : EWSDateTime) : Except Err String :=
  match t.tzinfo with
  | none => .error (.valueError "%r must be timezone-aware")
  | some tz =>
      match tz.keyAttr with
      | none => .error (.attributeError "key")
      | some k =>
          if k = "UTC" then .ok (String.mk (fmtZChars t.n))
          else
            let n0 : Naive :=
              ⟨t.n.year, t.n.month, t.n.day, t.n.hour, t.n.minute, t.n.second, 0⟩
            .ok (String.mk (isoChars n0 (tz.utcoffsetMin n0 t.fold)))

/-- `EWSDateTime.from_string`: a trailing `Z` means `strptime('%Y-%m-%dT%H:%M:%SZ')`
zoned to `UTC`; exactly 19 characters means a naive value, parsed and raised as
`NaiveDateTimeNotAllowed`; anything else goes through
`fromisoformat(...).astimezone(UTC)` and is wrapped by `from_datetime`. -/
def EWSDateTime.from_string (s : String) : Except Err EWSDateTime :=
  if s.data.getLast? = some 'Z' then
    match strptimeDtZ s.data with
    | some n => .ok ⟨n, some (.ews UTC), false⟩
    | none => .error (.valueError "time data does not match format")
  else if s.data.length = 19 then
    match strptimeDt19 s.data with
    | some n => .error (.naiveDateTimeNotAllowed ⟨n, none, false⟩)
    | none => .error (.valueError "time data does not match format")
  else
    match fromisoChars s.data with
    | none => .error (.valueError "Invalid isoformat string")
    | some d =>
        match pyDatetimeAstimezoneUTC d with
        | .ok u => EWSDateTime.from_datetime u
        | .error e => .error e

/-- Arithmetic characterisation of `isLeap`. -/
theorem isLeap_iff (y : Nat) : isLeap y = true ↔ (y % 4 = 0 ∧ (y % 100 ≠ 0 ∨ y % 400 = 0)) := by
  simp [isLeap]

/-- The inline leap test of `_ord2ymd` agrees with `isLeap` on the rebuilt year. -/
theorem leap_eq (a c e g : Nat) (hc : c ≤ 3) (he : e ≤ 24) (hg : g ≤ 3) :
    (g == 3 && (e != 24 || c == 3)) = isLeap (a * 400 + c * 100 + e * 4 + g + 1) := by
  rw [Bool.eq_iff_iff]
  simp only [Bool.and_eq_true, Bool.or_eq_true, beq_iff_eq, bne_iff_ne, ne_eq, isLeap_iff]
  omega

/-- `daysBeforeYear` of a year decomposed along the 400/100/4/1 chain. -/
theorem dby_decomp (a c e g : Nat) (hc : c ≤ 3) (he : e ≤ 24) (hg : g ≤ 3) :
    daysBeforeYear (a * 400 + c * 100 + e * 4 + g + 1) =
      146097 * a + 36524 * c + 1461 * e + 365 * g := by
  unfold daysBeforeYear
  omega

set_option maxHeartbeats 2000000 in
/-- `_ymd2ord` is a left inverse of `_ord2ymd` on positive ordinals. -/
theorem ymd2ord_ord2ymd (nn : Nat) (h1 : 1 ≤ nn) :
    ymd2ord (ord2ymd nn).1 (ord2ymd nn).2.1 (ord2ymd nn).2.2 = nn := by
  simp only [ord2ymd]
  generalize hA : (nn - 1) / 146097 = A at *
  generalize hB : (nn - 1) % 146097 = B at *
  generalize hC : B / 36524 = C at *
  generalize hD : B % 36524 = D at *
  generalize hE : D / 1461 = E at *
  generalize hF : D % 1461 = F at *
  generalize hG : F / 365 = G at *
  generalize hH : F % 365 = H at *
  split
  · rename_i hedge
    simp only [ymd2ord, daysBeforeMonth, DAYS_BEFORE_MONTH]
    rcases hedge with h4 | h100
    · rw [show A * 400 + C * 100 + E * 4 + G + 1 - 1 = A * 400 + C * 100 + E * 4 + 3 + 1 by omega]
      rw [dby_decomp A C E 3 (by omega) (by omega) (by omega)]
      rw [if_pos ⟨by norm_num,
        (by rw [isLeap_iff]; omega : isLeap (A * 400 + C * 100 + E * 4 + 3 + 1) = true)⟩]
      omega
    · rw [show A * 400 + C * 100 + E * 4 + G + 1 - 1 = A * 400 + 3 * 100 + 24 * 4 + 3 + 1 by omega]
      rw [dby_decomp A 3 24 3 (by norm_num) (by norm_num) (by norm_num)]
      rw [if_pos ⟨by norm_num,
        (by rw [isLeap_iff]; omega : isLeap (A * 400 + 3 * 100 + 24 * 4 + 3 + 1) = true)⟩]
      omega
  · rename_i hedge
    rw [leap_eq A C E G (by omega) (by omega) (by omega)]
    cases hLp : isLeap (A * 400 + C * 100 + E * 4 + G + 1) <;>
    · simp only [hLp, Bool.false_eq_true, and_false, if_false, eq_self_iff_true, and_true,
        add_zero]
      split_ifs <;>
      · dsimp only
        simp only [ymd2ord, daysBeforeMonth, hLp, Bool.false_eq_true, and_false, if_false,
          eq_self_iff_true, and_true, add_zero]
        rw [dby_decomp A C E G (by omega) (by omega) (by omega)]
        have hm1 : 1 ≤ (H + 50) / 32 := by omega
        have hm2 : (H + 50) / 32 ≤ 12 := by omega
        generalize hmo : (H + 50) / 32 = mo at *
        interval_cases mo <;>
          simp only [DAYS_BEFORE_MONTH, DAYS_IN_MONTH] at * <;>
          first
            | omega
            | ((split_ifs at * <;> try simp_all) <;> omega)

/-- `usOfNaive` is a left inverse of `usToNaive`. -/
theorem usOfNaive_usToNaive (t : Nat) : usOfNaive (usToNaive t) = t := by
  simp only [usToNaive, usOfNaive]
  rw [ymd2ord_ord2ymd (t / 86400000000 + 1) (by omega)]
  omega

/-- The rendered digit characters are decimal digits with the expected value. -/
theorem digit_ofNat (k : Nat) (hk : k ≤ 9) :
    (Char.ofNat (48 + k)).isDigit = true ∧ digitVal (Char.ofNat (48 + k)) = k := by
  interval_cases k <;> exact ⟨rfl, rfl⟩

/-- A decimal digit character is none of the delimiter characters used by the
formats. -/
theorem digit_ne_delims (c : Char) (h : c.isDigit = true) :
    c ≠ 'Z' ∧ c ≠ '+' ∧ c ≠ ':' ∧ c ≠ '-' ∧ c ≠ '.' ∧ c ≠ 'T' := by
  refine ⟨?_, ?_, ?_, ?_, ?_, ?_⟩ <;> rintro rfl <;> exact absurd h (by decide)

/-- Every character of `pad2 n` is a decimal digit. -/
theorem mem_pad2_isDigit (n : Nat) (c : Char) (h : c ∈ pad2 n) : c.isDigit = true := by
  simp only [pad2, List.mem_cons, List.mem_singleton, List.not_mem_nil, or_false] at h
  rcases h with rfl | rfl
  · exact (digit_ofNat (n / 10 % 10) (by omega)).1
  · exact (digit_ofNat (n % 10) (by omega)).1

/-- Every character of `pad4 n` is a decimal digit. -/
theorem mem_pad4_isDigit (n : Nat) (c : Char) (h : c ∈ pad4 n) : c.isDigit = true := by
  simp only [pad4, List.mem_cons, List.mem_singleton, List.not_mem_nil, or_false] at h
  rcases h with rfl | rfl | rfl | rfl
  · exact (digit_ofNat (n / 1000 % 10) (by omega)).1
  · exact (digit_ofNat (n / 100 % 10) (by omega)).1
  · exact (digit_ofNat (n / 10 % 10) (by omega)).1
  · exact (digit_ofNat (n % 10) (by omega)).1

/-- `read2` reads back `pad2`. -/
theorem read2_pad2 (n : Nat) (h : n ≤ 99) (rest : List Char) :
    read2 (pad2 n ++ rest) = some (n, rest) := by
  have h1 := digit_ofNat (n / 10 % 10) (by omega)
  have h2 := digit_ofNat (n % 10) (by omega)
  simp only [pad2, List.cons_append, List.nil_append, read2, h1.1, h1.2, h2.1, h2.2,
    Bool.and_self, if_true]
  have e : n / 10 % 10 * 10 + n % 10 = n := by omega
  rw [e]

/-- `read4` reads back `pad4`. -/
theorem read4_pad4 (n : Nat) (h : n ≤ 9999) (rest : List Char) :
    read4 (pad4 n ++ rest) = some (n, rest) := by
  have h1 := digit_ofNat (n / 1000 % 10) (by omega)
  have h2 := digit_ofNat (n / 100 % 10) (by omega)
  have h3 := digit_ofNat (n / 10 % 10) (by omega)
  have h4 := digit_ofNat (n % 10) (by omega)
  simp only [pad4, List.cons_append, List.nil_append, read4, h1.1, h1.2, h2.1, h2.2,
    h3.1, h3.2, h4.1, h4.2, Bool.and_self, if_true]
  have e : n / 1000 % 10 * 1000 + n / 100 % 10 * 100 + n / 10 % 10 * 10 + n % 10 = n := by
    omega
  rw [e]

/-- The lenient `%m` pattern reads back `pad2` for real months. -/
theorem readMonthL_pad2 (m : Nat) (h1 : 1 ≤ m) (h2 : m ≤ 12) (rest : List Char) :
    readMonthL (pad2 m ++ rest) = some (m, rest) := by
  interval_cases m <;> rfl

/-- The lenient `%d` pattern reads back `pad2` for real day numbers. -/
theorem readDayL_pad2 (d : Nat) (h1 : 1 ≤ d) (h2 : d ≤ 31) (rest : List Char) :
    readDayL (pad2 d ++ rest) = some (d, rest) := by
  interval_cases d <;> rfl

/-- The lenient `%H` pattern reads back `pad2` for real hours. -/
theorem readHourL_pad2 (h : Nat) (h2 : h ≤ 23) (rest : List Char) :
    readHourL (pad2 h ++ rest) = some (h, rest) := by
  interval_cases h <;> rfl

/-- The lenient `%M`/`%S` pattern reads back `pad2` for real minutes/seconds. -/
theorem readMinSecL_pad2 (x : Nat) (h2 : x ≤ 59) (rest : List Char) :
    readMinSecL (pad2 x ++ rest) = some (x, rest) := by
  interval_cases x <;> rfl

/-- Month lengths never exceed 31. -/
theorem daysInMonth_le (y m : Nat) : daysInMonth y m ≤ 31 := by
  unfold daysInMonth DAYS_IN_MONTH
  split <;> split_ifs <;> omega

/-- `fmtZChars` in right-nested form. -/
theorem fmtZChars_eq (n : Naive) :
    fmtZChars n = pad4 n.year ++ '-' :: (pad2 n.month ++ '-' :: (pad2 n.day ++
      'T' :: (pad2 n.hour ++ ':' :: (pad2 n.minute ++ ':' :: (pad2 n.second ++ ['Z']))))) := by
  simp [fmtZChars, basicChars, dateChars, List.append_assoc]

/-- `basicChars` in right-nested form. -/
theorem basicChars_eq (n : Naive) :
    basicChars n = pad4 n.year ++ '-' :: (pad2 n.month ++ '-' :: (pad2 n.day ++
      'T' :: (pad2 n.hour ++ ':' :: (pad2 n.minute ++ ':' :: (pad2 n.second ++ []))))) := by
  simp [basicChars, dateChars, List.append_assoc]

/-- The `'%Y-%m-%dT%H:%M:%SZ'` pattern reads back the `…Z` rendering. -/
theorem strptimeDtZ_fmt (y m d h mi s : Nat) (hv : validNaive ⟨y, m, d, h, mi, s, 0⟩) :
    strptimeDtZ (fmtZChars ⟨y, m, d, h, mi, s, 0⟩) = some ⟨y, m, d, h, mi, s, 0⟩ := by
  have hv' : 1 ≤ y ∧ y ≤ 9999 ∧ 1 ≤ m ∧ m ≤ 12 ∧ 1 ≤ d ∧ d ≤ daysInMonth y m ∧
      h ≤ 23 ∧ mi ≤ 59 ∧ s ≤ 59 := by simpa [validNaive] using hv
  obtain ⟨h1, h2, h3, h4, h5, h6, h7, h8, h9⟩ := hv'
  have hd31 : d ≤ 31 := le_trans h6 (daysInMonth_le y m)
  rw [fmtZChars_eq]
  simp only [strptimeDtZ, read4_pad4 y (by omega), readMonthL_pad2 m h3 h4,
    readDayL_pad2 d h5 hd31, readHourL_pad2 h h7, readMinSecL_pad2 mi h8,
    readMinSecL_pad2 s h9]
  rw [if_pos hv]

/-- `read2` reads back `pad2` at the end of the input. -/
theorem read2_pad2_nil (n : Nat) (h : n ≤ 99) : read2 (pad2 n) = some (n, []) := by
  have := read2_pad2 n h []
  simpa using this

/-- The lenient `%M`/`%S` pattern reads back `pad2` at the end of the input. -/
theorem readMinSecL_pad2_nil (x : Nat) (h2 : x ≤ 59) : readMinSecL (pad2 x) = some (x, []) := by
  have := readMinSecL_pad2 x h2 []
  simpa using this

/-- The `'%Y-%m-%dT%H:%M:%S'` pattern reads back the 19-character rendering. -/
theorem strptimeDt19_fmt (y m d h mi s : Nat) (hv : validNaive ⟨y, m, d, h, mi, s, 0⟩) :
    strptimeDt19 (basicChars ⟨y, m, d, h, mi, s, 0⟩) = some ⟨y, m, d, h, mi, s, 0⟩ := by
  have hv' : 1 ≤ y ∧ y ≤ 9999 ∧ 1 ≤ m ∧ m ≤ 12 ∧ 1 ≤ d ∧ d ≤ daysInMonth y m ∧
      h ≤ 23 ∧ mi ≤ 59 ∧ s ≤ 59 := by simpa [validNaive] using hv
  obtain ⟨h1, h2, h3, h4, h5, h6, h7, h8, h9⟩ := hv'
  have hd31 : d ≤ 31 := le_trans h6 (daysInMonth_le y m)
  rw [basicChars_eq]
  simp only [strptimeDt19, read4_pad4 y (by omega), readMonthL_pad2 m h3 h4,
    readDayL_pad2 d h5 hd31, readHourL_pad2 h h7, readMinSecL_pad2 mi h8,
    readMinSecL_pad2 s h9]
  rw [if_pos hv]

/-- `dateChars` in right-nested form ending in an explicit append. -/
theorem dateChars_eq (y m d : Nat) (rest : List Char) :
    dateChars y m d ++ rest = pad4 y ++ '-' :: (pad2 m ++ '-' :: (pad2 d ++ rest)) := by
  simp [dateChars, List.append_assoc]

/-- The `'%Y-%m-%dZ'` pattern reads back the date rendering with a `Z` suffix. -/
theorem strptimeDateZ_fmt (y m d : Nat) (hv : validYmd y m d) :
    strptimeDateZ (dateChars y m d ++ ['Z']) = some (y, m, d) := by
  obtain ⟨h1, h2, h3, h4, h5, h6⟩ := hv
  have hd31 : d ≤ 31 := le_trans h6 (daysInMonth_le y m)
  rw [dateChars_eq]
  simp only [strptimeDateZ, read4_pad4 y (by omega), readMonthL_pad2 m h3 h4,
    readDayL_pad2 d h5 hd31]
  rw [if_pos ⟨h1, h2, h3, h4, h5, h6⟩]

/-- The `'%Y-%m-%d+%H:%M'` pattern reads back the date rendering with a
`+HH:MM` suffix, discarding the offset fields. -/
theorem strptimeDatePlus_fmt (y m d hh mm : Nat) (hv : validYmd y m d)
    (hhh : hh ≤ 23) (hmm : mm ≤ 59) :
    strptimeDatePlus (dateChars y m d ++ '+' :: (pad2 hh ++ ':' :: pad2 mm)) =
      some (y, m, d) := by
  obtain ⟨h1, h2, h3, h4, h5, h6⟩ := hv
  have hd31 : d ≤ 31 := le_trans h6 (daysInMonth_le y m)
  rw [dateChars_eq]
  simp only [strptimeDatePlus, read4_pad4 y (by omega), readMonthL_pad2 m h3 h4,
    readDayL_pad2 d h5 hd31, readHourL_pad2 hh hhh, readMinSecL_pad2_nil mm hmm]
  rw [if_pos ⟨h1, h2, h3, h4, h5, h6⟩]

/-- The `'%Y-%m-%d-%H:%M'` pattern reads back the date rendering with a
`-HH:MM` suffix, discarding the offset fields. -/
theorem strptimeDateMinus_fmt (y m d hh mm : Nat) (hv : validYmd y m d)
    (hhh : hh ≤ 23) (hmm : mm ≤ 59) :
    strptimeDateMinus (dateChars y m d ++ '-' :: (pad2 hh ++ ':' :: pad2 mm)) =
      some (y, m, d) := by
  obtain ⟨h1, h2, h3, h4, h5, h6⟩ := hv
  have hd31 : d ≤ 31 := le_trans h6 (daysInMonth_le y m)
  rw [dateChars_eq]
  simp only [strptimeDateMinus, read4_pad4 y (by omega), readMonthL_pad2 m h3 h4,
    readDayL_pad2 d h5 hd31, readHourL_pad2 hh hhh, readMinSecL_pad2_nil mm hmm]
  rw [if_pos ⟨h1, h2, h3, h4, h5, h6⟩]

/-- The `'%Y-%m-%d'` pattern reads back the bare date rendering. -/
theorem strptimeDateBare_fmt (y m d : Nat) (hv : validYmd y m d) :
    strptimeDateBare (dateChars y m d) = some (y, m, d) := by
  obtain ⟨h1, h2, h3, h4, h5, h6⟩ := hv
  have hd31 : d ≤ 31 := le_trans h6 (daysInMonth_le y m)
  have e : dateChars y m d = pad4 y ++ '-' :: (pad2 m ++ '-' :: (pad2 d ++ [])) := by
    simp [dateChars, List.append_assoc]
  rw [e]
  simp only [strptimeDateBare, read4_pad4 y (by omega), readMonthL_pad2 m h3 h4,
    readDayL_pad2 d h5 hd31]
  rw [if_pos ⟨h1, h2, h3, h4, h5, h6⟩]

/-- The offset grammar of `fromisoformat` reads back the `HH:MM` rendering of
an absolute offset below one day. -/
theorem parseOffsetHm_pads (a : Nat) (ha : a ≤ 1439) :
    parseOffsetHm (pad2 (a / 60) ++ ':' :: pad2 (a % 60)) = some a := by
  simp only [parseOffsetHm, read2_pad2 (a / 60) (by omega), read2_pad2_nil (a % 60) (by omega)]
  rw [if_pos ⟨by omega, by omega⟩]
  congr 1
  omega

/-- The timezone tail of `fromisoformat` reads back a positive `+HH:MM` offset. -/
theorem parseTzTail_plus (a : Nat) (ha : a ≤ 1439) :
    parseTzTail ('+' :: (pad2 (a / 60) ++ ':' :: pad2 (a % 60))) =
      some (some (Int.ofNat a)) := by
  simp [parseTzTail, parseOffsetHm_pads a ha]

/-- `fromisoformat` reads back the `isoformat` rendering of a zero-microsecond
value with a nonnegative whole-minute offset. -/
theorem fromisoChars_iso (y m d h mi s : Nat) (off : Int)
    (hv : validNaive ⟨y, m, d, h, mi, s, 0⟩) (h0 : 0 ≤ off) (h1439 : off ≤ 1439) :
    fromisoChars (isoChars ⟨y, m, d, h, mi, s, 0⟩ off) =
      some ⟨⟨y, m, d, h, mi, s, 0⟩, some (.fixedOffset off), false⟩ := by
  have hv' : 1 ≤ y ∧ y ≤ 9999 ∧ 1 ≤ m ∧ m ≤ 12 ∧ 1 ≤ d ∧ d ≤ daysInMonth y m ∧
      h ≤ 23 ∧ mi ≤ 59 ∧ s ≤ 59 := by simpa [validNaive] using hv
  obtain ⟨h1, h2, h3, h4, h5, h6, h7, h8, h9⟩ := hv'
  have hd31 : d ≤ 31 := le_trans h6 (daysInMonth_le y m)
  have eIso : isoChars ⟨y, m, d, h, mi, s, 0⟩ off = pad4 y ++ '-' :: (pad2 m ++ '-' ::
      (pad2 d ++ 'T' :: (pad2 h ++ ':' :: (pad2 mi ++ ':' :: (pad2 s ++ '+' ::
        (pad2 (off.natAbs / 60) ++ ':' :: pad2 (off.natAbs % 60))))))) := by
    simp [isoChars, basicChars, dateChars, offsetChars, List.append_assoc,
      if_neg (not_lt.mpr h0)]
  rw [eIso]
  simp only [fromisoChars, read4_pad4 y (by omega), read2_pad2 m (by omega),
    read2_pad2 d (by omega), parseIsoTime, read2_pad2 h (by omega),
    read2_pad2 mi (by omega), read2_pad2 s (by omega), List.head?_cons]
  rw [if_neg (by simp)]
  simp only [parseTzTail_plus off.natAbs (by omega)]
  simp only [mkIsoResult]
  rw [if_pos hv]
  simp only [Option.map_some']
  have : Int.ofNat off.natAbs = off := Int.natAbs_of_nonneg h0
  rw [this]

/-- `List.contains` as membership (the `in` tests of the dispatch logic). -/
theorem contains_iff_mem (l : List Char) (c : Char) : l.contains c = true ↔ c ∈ l :=
  List.elem_iff

/-- The last character of the `…Z` rendering is the literal `Z`. -/
theorem fmtZChars_getLast (n : Naive) : (fmtZChars n).getLast? = some 'Z' := by
  rw [fmtZChars, List.getLast?_append_cons]
  rfl

/-- The last character of the offset rendering is a digit, not `Z`. -/
theorem isoChars_getLast (n : Naive) (off : Int) :
    (isoChars n off).getLast? = some (Char.ofNat (48 + off.natAbs % 60 % 10)) := by
  have e : isoChars n off = (basicChars n ++ (if off < 0 then '-' else '+') ::
      pad2 (off.natAbs / 60)) ++ ':' :: pad2 (off.natAbs % 60) := by
    simp [isoChars, offsetChars, List.append_assoc]
  rw [e, List.getLast?_append_cons]
  rfl

/-- The last character of the 19-character rendering is a digit, not `Z`. -/
theorem basicChars_getLast (n : Naive) :
    (basicChars n).getLast? = some (Char.ofNat (48 + n.second % 10)) := by
  have e : basicChars n = (dateChars n.year n.month n.day ++ 'T' :: (pad2 n.hour ++ ':' ::
      pad2 n.minute)) ++ ':' :: pad2 n.second := by
    simp [basicChars, List.append_assoc]
  rw [e, List.getLast?_append_cons]
  rfl

/-- The last character of the date rendering is a digit, not `Z`. -/
theorem dateChars_getLast (y m d : Nat) :
    (dateChars y m d).getLast? = some (Char.ofNat (48 + d % 10)) := by
  have e : dateChars y m d = (pad4 y ++ '-' :: pad2 m) ++ '-' :: pad2 d := by
    simp [dateChars, List.append_assoc]
  rw [e, List.getLast?_append_cons]
  rfl

/-- The digit rendered for `k % 10` is never a delimiter character. -/
theorem digitChar_ne (k : Nat) (c : Char) (hc : c = 'Z' ∨ c = '+' ∨ c = ':') :
    Char.ofNat (48 + k % 10) ≠ c := by
  have h := (digit_ofNat (k % 10) (by omega)).1
  have hne := digit_ne_delims _ h
  rcases hc with rfl | rfl | rfl
  · exact hne.1
  · exact hne.2.1
  · exact hne.2.2.1

/-- Character lengths of the renderings. -/
theorem fmtZChars_length (n : Naive) : (fmtZChars n).length = 20 := by
  simp [fmtZChars, basicChars, dateChars, pad2, pad4]

/-- The 19-character rendering really has 19 characters. -/
theorem basicChars_length (n : Naive) : (basicChars n).length = 19 := by
  simp [basicChars, dateChars, pad2, pad4]

/-- The offset rendering has 25 characters. -/
theorem isoChars_length (n : Naive) (off : Int) : (isoChars n off).length = 25 := by
  simp [isoChars, basicChars, dateChars, offsetChars, pad2, pad4]

/-- Character classification of the date rendering: digits and dashes only. -/
theorem mem_dateChars (y m d : Nat) (c : Char) (h : c ∈ dateChars y m d) :
    c.isDigit = true ∨ c = '-' := by
  simp only [dateChars, List.mem_append, List.mem_cons] at h
  rcases h with h | rfl | h | rfl | h
  · exact Or.inl (mem_pad4_isDigit y c h)
  · exact Or.inr rfl
  · exact Or.inl (mem_pad2_isDigit m c h)
  · exact Or.inr rfl
  · exact Or.inl (mem_pad2_isDigit d c h)

/-- Character classification of the compact UTC rendering. -/
theorem mem_fmtZChars (n : Naive) (c : Char) (h : c ∈ fmtZChars n) :
    c.isDigit = true ∨ c = '-' ∨ c = ':' ∨ c = 'T' ∨ c = 'Z' := by
  simp only [fmtZChars, basicChars, List.mem_append, List.mem_cons, List.mem_singleton,
    List.not_mem_nil, or_false] at h
  rcases h with (h | h | h | h | h | h | h) | h
  · rcases mem_dateChars n.year n.month n.day c h with hd | hd
    · exact Or.inl hd
    · exact Or.inr (Or.inl hd)
  · exact Or.inr (Or.inr (Or.inr (Or.inl h)))
  · exact Or.inl (mem_pad2_isDigit n.hour c h)
  · exact Or.inr (Or.inr (Or.inl h))
  · exact Or.inl (mem_pad2_isDigit n.minute c h)
  · exact Or.inr (Or.inr (Or.inl h))
  · exact Or.inl (mem_pad2_isDigit n.second c h)
  · exact Or.inr (Or.inr (Or.inr (Or.inr h)))

/-- The compact UTC rendering never contains a `+` (no numeric offset). -/
theorem plus_not_mem_fmtZChars (n : Naive) : '+' ∉ fmtZChars n := by
  intro h
  rcases mem_fmtZChars n '+' h with h | h | h | h | h <;> exact absurd h (by decide)

/-- UTC offsets in the modelled tz database are nonnegative and at most two
hours. -/
theorem zoneUtcOffsetMin_bounds (k : String) (n : Naive) (f : Bool) :
    0 ≤ zoneUtcOffsetMin k n f ∧ zoneUtcOffsetMin k n f ≤ 120 := by
  simp only [zoneUtcOffsetMin, cetOffsetMin]
  split_ifs <;> norm_num

/-- The UTC zone has offset 0 at every wall-clock reading and fold. -/
theorem zoneUtcOffsetMin_utc (n : Naive) (f : Bool) : zoneUtcOffsetMin "UTC" n f = 0 := rfl

/-- The character data of a built string. -/
theorem data_mk (l : List Char) : (String.mk l).data = l := rfl

/-- Ordinals of valid dates stay below the ordinal of 9999-12-31. -/
theorem ymd2ord_le_max (y m d : Nat) (hv : validYmd y m d) : ymd2ord y m d ≤ 3652059 := by
  obtain ⟨h1, h2, h3, h4, h5, h6⟩ := hv
  unfold daysInMonth at h6
  unfold ymd2ord daysBeforeYear daysBeforeMonth
  interval_cases m <;>
    simp only [DAYS_BEFORE_MONTH, DAYS_IN_MONTH] at * <;>
    split_ifs at * <;>
    simp only [isLeap_iff] at * <;>
    omega

/-- Timestamps of valid wall-clock readings stay below `usMax`. -/
theorem usOfNaive_lt_usMax (n : Naive) (hv : validNaive n) : usOfNaive n < usMax := by
  obtain ⟨y, m, d, h, mi, s, us⟩ := n
  have hv' : 1 ≤ y ∧ y ≤ 9999 ∧ 1 ≤ m ∧ m ≤ 12 ∧ 1 ≤ d ∧ d ≤ daysInMonth y m ∧
      h ≤ 23 ∧ mi ≤ 59 ∧ s ≤ 59 ∧ us ≤ 999999 := by simpa [validNaive] using hv
  obtain ⟨g1, g2, g3, g4, g5, g6, h7, h8, h9, h10⟩ := hv'
  have hymd : validYmd y m d := ⟨g1, g2, g3, g4, g5, g6⟩
  have := ymd2ord_le_max y m d hymd
  unfold usOfNaive usMax
  dsimp only
  omega

/-- The last character after a `:MM` suffix is the second digit of the pad. -/
theorem getLast_colon_pad2 (xs : List Char) (k : Nat) :
    (xs ++ ':' :: pad2 k).getLast? = some (Char.ofNat (48 + k % 10)) := by
  rw [List.getLast?_append_cons]
  rfl

/-- C8: the claim says constructing a TimestampValue whose zone argument is
neither absent nor an `EWSTimeZone` (e.g. a bare fixed-offset `tzinfo`) always
fails with the `ValueError` the spec calls `InvalidTimezoneType`.  The check in
`EWSDateTime.__new__` consults only `kwargs.get('tzinfo')`, so passing the same
bare-offset tzinfo positionally bypasses it and yields an `EWSDateTime` in the
"offset but no identity" state the spec declares unrepresentable; the keyword
path (second conjunct) behaves as claimed. -/
theorem C8_positional_tzinfo_bypasses_check :
    EWSDateTime.new ⟨2020, 1, 1, 0, 0, 0, 0⟩ (some (.fixedOffset 120)) false =
      .ok ⟨⟨2020, 1, 1, 0, 0, 0, 0⟩, some (.fixedOffset 120), false⟩ ∧
    EWSDateTime.new ⟨2020, 1, 1, 0, 0, 0, 0⟩ (some (.fixedOffset 120)) true =
      .error (.valueError "tzinfo must be an EWSTimeZone instance") :=
  ⟨rfl, rfl⟩

/-- C10: adapting a plain naive `datetime` through `from_datetime` succeeds,
preserves all seven value fields, attaches no zone, and raises nothing. -/
theorem C10_from_datetime_naive (d : PyDatetime) (h : d.tzinfo = none) :
    EWSDateTime.from_datetime d = .ok ⟨d.n, none, false⟩ := by
  unfold EWSDateTime.from_datetime
  rw [h]

/-- C10 witness. -/
theorem C10_from_datetime_naive_witness :
    EWSDateTime.from_datetime ⟨⟨2009, 1, 15, 13, 45, 56, 123456⟩, none, true⟩ =
      .ok ⟨⟨2009, 1, 15, 13, 45, 56, 123456⟩, none, false⟩ :=
  C10_from_datetime_naive ⟨⟨2009, 1, 15, 13, 45, 56, 123456⟩, none, true⟩ rfl

/-- C3: for zones obtained from the registry, `__eq__` holds exactly when the
vendor ids derived from the two IANA keys coincide — the `ianaKey` fields play
no role beyond determining the vendor id (the construction also fixes
`z.key` to the requested IANA key, shown by the last two conjuncts). -/
theorem C3_eq_iff_vendor_id (k1 k2 : String) (z1 z2 : EWSTimeZone)
    (h1 : EWSTimeZone.new k1 = .ok z1) (h2 : EWSTimeZone.new k2 = .ok z2) :
    (EWSTimeZone.beq z1 z2 = true ↔
      IANA_TO_MS_TIMEZONE_MAP.lookup k1 = IANA_TO_MS_TIMEZONE_MAP.lookup k2) ∧
    z1.key = k1 ∧ z2.key = k2 := by
  unfold EWSTimeZone.new at h1 h2
  split at h1
  · split at h1
    · rename_i ms1 heq1
      split at h2
      · split at h2
        · rename_i ms2 heq2
          cases h1
          cases h2
          refine ⟨?_, rfl, rfl⟩
          rw [heq1, heq2]
          simp [EWSTimeZone.beq]
        · exact absurd h2 (by simp)
      · exact absurd h2 (by simp)
    · exact absurd h1 (by simp)
  · exact absurd h1 (by simp)

/-- C3 witness: `Europe/Copenhagen` and `Europe/Paris` collapse to the same
vendor id and compare equal; `Europe/Copenhagen` and `UTC` do not. -/
theorem C3_eq_iff_vendor_id_witness :
    EWSTimeZone.beq ⟨"Europe/Copenhagen", "Romance Standard Time"⟩
      ⟨"Europe/Paris", "Romance Standard Time"⟩ = true ∧
    EWSTimeZone.beq ⟨"Europe/Copenhagen", "Romance Standard Time"⟩ ⟨"UTC", "UTC"⟩ = false := by
  constructor
  · exact (C3_eq_iff_vendor_id "Europe/Copenhagen" "Europe/Paris" _ _ rfl rfl).1.mpr rfl
  · have h := (C3_eq_iff_vendor_id "Europe/Copenhagen" "UTC" _ _ rfl rfl).1
    cases hb : EWSTimeZone.beq ⟨"Europe/Copenhagen", "Romance Standard Time"⟩ ⟨"UTC", "UTC"⟩
    · rfl
    · exact absurd (h.mp hb) (by decide)

/-- C5: `from_ms_id` on an id absent from the vendor table retries it verbatim
as an IANA key when it contains a `/` and otherwise fails with
`UnknownTimeZone`; in particular `"Europe/Copenhagen"` succeeds and equals the
IANA-key construction, and `"Nonexistent Standard Time"` fails. -/
theorem C5_from_ms_id_fallback :
    (∀ ms : String, MS_TIMEZONE_TO_IANA_MAP.lookup ms = none →
        ms.data.contains '/' = false →
        EWSTimeZone.from_ms_id ms = .error (.unknownTimeZone
          ("Windows timezone ID '" ++ ms ++ "' is unknown by CLDR"))) ∧
    (∀ ms : String, MS_TIMEZONE_TO_IANA_MAP.lookup ms = none →
        ms.data.contains '/' = true →
        EWSTimeZone.from_ms_id ms = EWSTimeZone.new ms) ∧
    EWSTimeZone.from_ms_id "Europe/Copenhagen" = EWSTimeZone.new "Europe/Copenhagen" ∧
    EWSTimeZone.from_ms_id "Europe/Copenhagen" =
      .ok ⟨"Europe/Copenhagen", "Romance Standard Time"⟩ ∧
    EWSTimeZone.from_ms_id "Nonexistent Standard Time" = .error (.unknownTimeZone
      "Windows timezone ID 'Nonexistent Standard Time' is unknown by CLDR") := by
  refine ⟨?_, ?_, by rfl, by rfl, by rfl⟩
  · intro ms hlook hslash
    unfold EWSTimeZone.from_ms_id
    rw [hlook, hslash]
    rfl
  · intro ms hlook hslash
    unfold EWSTimeZone.from_ms_id
    rw [hlook, hslash]
    rfl

/-- C5 witness. -/
theorem C5_from_ms_id_fallback_witness :
    EWSTimeZone.from_ms_id "Nonexistent Standard Time" = .error (.unknownTimeZone
      "Windows timezone ID 'Nonexistent Standard Time' is unknown by CLDR") :=
  C5_from_ms_id_fallback.1 "Nonexistent Standard Time" rfl rfl

/-- C4: formatting a UTC-zoned value emits exactly the 20-character compact
`YYYY-MM-DDTHH:MM:SSZ` rendering — microseconds are dropped, the text ends in
the literal `Z` and contains no `+` (no numeric offset); the 2009-01-15
example produces the exact expected text; formatting an unzoned value fails
with the `ValueError` the spec calls `MissingTimezone`. -/
theorem C4_utc_format :
    (∀ (t : EWSDateTime) (z : EWSTimeZone), t.tzinfo = some (.ews z) → z.key = "UTC" →
        t.ewsformat = .ok (String.mk (fmtZChars t.n)) ∧
        (fmtZChars t.n).getLast? = some 'Z' ∧ '+' ∉ fmtZChars t.n ∧
        (fmtZChars t.n).length = 20) ∧
    EWSDateTime.ewsformat ⟨⟨2009, 1, 15, 13, 45, 56, 0⟩, some (.ews UTC), false⟩ =
      .ok "2009-01-15T13:45:56Z" ∧
    (∀ t : EWSDateTime, t.tzinfo = none →
        t.ewsformat = .error (.valueError "%r must be timezone-aware")) := by
  refine ⟨?_, by rfl, ?_⟩
  · intro t z ht hk
    refine ⟨?_, fmtZChars_getLast t.n, plus_not_mem_fmtZChars t.n, fmtZChars_length t.n⟩
    unfold EWSDateTime.ewsformat
    rw [ht]
    simp only [Tzinfo.keyAttr, hk]
    rw [if_pos trivial]
  · intro t ht
    unfold EWSDateTime.ewsformat
    rw [ht]

/-- C4 witness. -/
theorem C4_utc_format_witness :
    EWSDateTime.ewsformat ⟨⟨2020, 6, 1, 0, 0, 0, 0⟩, none, false⟩ =
      .error (.valueError "%r must be timezone-aware") :=
  C4_utc_format.2.2 ⟨⟨2020, 6, 1, 0, 0, 0, 0⟩, none, false⟩ rfl

/-- C6: on a naive wall-clock time where the two fold interpretations have
different DST-activity, `localize` with a non-null `is_dst` returns the zone
attached with the fold whose DST-active state matches `is_dst`; being a pure
function of its arguments, the result is the same on every call with the same
inputs. -/
theorem C6_localize_fold (z : EWSTimeZone) (dt : EWSDateTime) (b : Bool)
    (hnaive : dt.tzinfo = none)
    (hact : ¬((0 < zoneDstMin z.key dt.n false) ↔ (0 < zoneDstMin z.key dt.n true))) :
    EWSTimeZone.localize z dt (some b) =
      .ok ⟨dt.n, some (.ews z),
        if zoneDstMin z.key dt.n false < zoneDstMin z.key dt.n true then b else !b⟩ ∧
    ((0 < zoneDstMin z.key dt.n
        (if zoneDstMin z.key dt.n false < zoneDstMin z.key dt.n true then b else !b)) ↔
      b = true) := by
  have hsplit : (0 < zoneDstMin z.key dt.n false ∧ ¬0 < zoneDstMin z.key dt.n true) ∨
      (¬0 < zoneDstMin z.key dt.n false ∧ 0 < zoneDstMin z.key dt.n true) := by
    by_cases hf : 0 < zoneDstMin z.key dt.n false <;>
      by_cases ht : 0 < zoneDstMin z.key dt.n true <;>
      tauto
  unfold EWSTimeZone.localize
  rw [hnaive]
  simp only [Option.isSome_none, Bool.false_eq_true, if_false]
  rcases hsplit with ⟨hf, ht⟩ | ⟨hf, ht⟩
  · have hgt : zoneDstMin z.key dt.n true < zoneDstMin z.key dt.n false := by omega
    rw [if_pos hgt,
      if_neg (show ¬zoneDstMin z.key dt.n false < zoneDstMin z.key dt.n true by omega)]
    constructor
    · cases b <;> rfl
    · cases b <;> simp_all
  · have hlt : zoneDstMin z.key dt.n false < zoneDstMin z.key dt.n true := by omega
    rw [if_neg (show ¬zoneDstMin z.key dt.n true < zoneDstMin z.key dt.n false by omega),
      if_pos hlt, if_pos hlt]
    constructor
    · cases b <;> rfl
    · cases b <;> simp_all

/-- C6 witness: 02:30 inside the modelled 2020-10-25 Copenhagen fold window;
`is_dst = true` selects fold 0 (the DST-active first occurrence). -/
theorem C6_localize_fold_witness :
    EWSTimeZone.localize localZone ⟨⟨2020, 10, 25, 2, 30, 0, 0⟩, none, false⟩ (some true) =
      .ok ⟨⟨2020, 10, 25, 2, 30, 0, 0⟩, some (.ews localZone), false⟩ ∧
    (0 < zoneDstMin localZone.key ⟨2020, 10, 25, 2, 30, 0, 0⟩ false) := by
  have h := C6_localize_fold localZone ⟨⟨2020, 10, 25, 2, 30, 0, 0⟩, none, false⟩ true rfl
    (by decide)
  refine ⟨?_, by decide⟩
  have h1 := h.1
  simpa using h1

/-- C9: type closure of the arithmetic.  Whenever the base-class arithmetic
produces a value, the `EWSDateTime` wrappers re-wrap it into an `EWSDateTime`
with the same fields and zone (the `from_datetime` adaptation never fails on a
spec-state zone), subtracting a datetime yields a duration, and the `EWSDate`
wrappers likewise always return `EWSDate` values. -/
theorem C9_type_closure :
    (∀ (t : EWSDateTime) (du : Int) (b : PyDatetime), specZone t.tzinfo →
        pyDatetimeAddUs t.toBase du = .ok b → t.add du = .ok ⟨b.n, b.tzinfo, false⟩) ∧
    (∀ (t : EWSDateTime) (du : Int) (b : PyDatetime), specZone t.tzinfo →
        pyDatetimeAddUs t.toBase (-du) = .ok b →
        t.sub_timedelta du = .ok ⟨b.n, b.tzinfo, false⟩) ∧
    (∀ t u : EWSDateTime, t.tzinfo = none → u.tzinfo = none →
        t.sub_datetime u = .ok ((usOfNaive t.n : Int) - (usOfNaive u.n : Int))) ∧
    (∀ (d : EWSDate) (du : Int) (b : PyDate),
        pyDateAddUs d.toBase du = .ok b → d.add du = .ok ⟨b.year, b.month, b.day⟩) ∧
    (∀ (d : EWSDate) (du : Int) (b : PyDate),
        pyDateAddUs d.toBase (-du) = .ok b →
        d.sub_timedelta du = .ok ⟨b.year, b.month, b.day⟩) ∧
    (∀ a b : EWSDate, EWSDate.sub_date a b =
        ((ymd2ord a.year a.month a.day : Int) - (ymd2ord b.year b.month b.day : Int)) *
          86400000000) := by
  have hwrap : ∀ (t : EWSDateTime) (b : PyDatetime), specZone t.tzinfo →
      b.tzinfo = t.tzinfo → EWSDateTime.from_datetime b = .ok ⟨b.n, b.tzinfo, false⟩ := by
    intro t b hspec hbt
    rcases hspec with hnone | ⟨z, hz⟩
    · unfold EWSDateTime.from_datetime
      rw [hbt, hnone]
    · unfold EWSDateTime.from_datetime
      rw [hbt, hz]
  have htz : ∀ (t : EWSDateTime) (du : Int) (b : PyDatetime),
      pyDatetimeAddUs t.toBase du = .ok b → b.tzinfo = t.tzinfo := by
    intro t du b hb
    unfold pyDatetimeAddUs at hb
    split at hb
    · cases hb
      rfl
    · exact absurd hb (by simp)
  refine ⟨?_, ?_, ?_, ?_, ?_, fun a b => rfl⟩
  · intro t du b hspec hb
    unfold EWSDateTime.add
    rw [hb]
    exact hwrap t b hspec (htz t du b hb)
  · intro t du b hspec hb
    unfold EWSDateTime.sub_timedelta
    rw [hb]
    exact hwrap t b hspec (htz t (-du) b hb)
  · intro t u ht hu
    unfold EWSDateTime.sub_datetime pyDatetimeSubDt EWSDateTime.toBase
    rw [ht, hu]
  · intro d du b hb
    unfold EWSDate.add
    rw [hb]
    rfl
  · intro d du b hb
    unfold EWSDate.sub_timedelta
    rw [hb]
    rfl

/-- C9 witness: adding one day across the 2020 leap day keeps the result an
`EWSDateTime` with its fields advanced. -/
theorem C9_type_closure_witness :
    EWSDateTime.add ⟨⟨2020, 2, 28, 12, 0, 0, 0⟩, none, false⟩ 86400000000 =
      .ok ⟨⟨2020, 2, 29, 12, 0, 0, 0⟩, none, false⟩ :=
  C9_type_closure.1 ⟨⟨2020, 2, 28, 12, 0, 0, 0⟩, none, false⟩ 86400000000
    ⟨⟨2020, 2, 29, 12, 0, 0, 0⟩, none, false⟩ (Or.inl rfl) (by rfl)

/-- C1 counterexample: `"2009-01-15T13:45:56.123456"` carries no timezone or
offset information, yet `from_string` does not fail with
`NaiveDateTimeNotAllowed`: the input has 26 characters, so it skips the
19-character naive check, and `fromisoformat(...).astimezone(UTC)` silently
interprets it in the platform local zone (the modelled `localZone`,
offset +60 at this reading) and returns a UTC-zoned value. -/
theorem C1_counterexample :
    EWSDateTime.from_string "2009-01-15T13:45:56.123456" =
      .ok ⟨⟨2009, 1, 15, 12, 45, 56, 123456⟩, some (.ews UTC), false⟩ := by
  rfl

/-- C1 (amended): for every input of exactly 19 characters in the canonical
shape `YYYY-MM-DDTHH:MM:SS` — no offset and no `Z` — `from_string` fails with
`NaiveDateTimeNotAllowed` carrying the parsed naive value, substituting no
default zone.  (Longer no-offset inputs are instead interpreted in the local
zone, see the counterexample.) -/
theorem C1_naive_19char (y m d h mi s : Nat) (hv : validNaive ⟨y, m, d, h, mi, s, 0⟩) :
    EWSDateTime.from_string (String.mk (basicChars ⟨y, m, d, h, mi, s, 0⟩)) =
      .error (.naiveDateTimeNotAllowed ⟨⟨y, m, d, h, mi, s, 0⟩, none, false⟩) := by
  unfold EWSDateTime.from_string
  simp only [data_mk]
  rw [if_neg (by
    rw [basicChars_getLast]
    simp only [Option.some.injEq]
    exact digitChar_ne s 'Z' (Or.inl rfl))]
  rw [if_pos (basicChars_length ⟨y, m, d, h, mi, s, 0⟩)]
  rw [strptimeDt19_fmt y m d h mi s hv]

/-- C1 witness. -/
theorem C1_naive_19char_witness :
    EWSDateTime.from_string "2009-01-15T13:45:56" =
      .error (.naiveDateTimeNotAllowed ⟨⟨2009, 1, 15, 13, 45, 56, 0⟩, none, false⟩) :=
  C1_naive_19char 2009 1 15 13 45 56 (by decide)

/-- Delimiter characters never occur among the digits and dashes of the date
rendering. -/
theorem not_mem_dateChars (y m d : Nat) (c : Char)
    (hc : c = ':' ∨ c = '+' ∨ c = 'Z') : c ∉ dateChars y m d := by
  intro h
  rcases mem_dateChars y m d c h with hd | hd
  · rcases hc with rfl | rfl | rfl <;> exact absurd hd (by decide)
  · rcases hc with rfl | rfl | rfl <;> simp at hd

/-- C7: `EWSDate.from_string` accepts the four textual shapes — `YYYY-MM-DDZ`,
`YYYY-MM-DD+HH:MM`, `YYYY-MM-DD-HH:MM` and bare `YYYY-MM-DD` — each parsed to
the date component with any offset fields discarded (first conjunct); every
accepted input matches one of the four `strptime` patterns (second conjunct);
and the offset of `"2020-06-01+02:00"` is accepted then discarded (third
conjunct). -/
theorem C7_date_parse :
    (∀ (y m d hh mm : Nat), validYmd y m d → hh ≤ 23 → mm ≤ 59 →
        EWSDate.from_string (String.mk (dateChars y m d ++ ['Z'])) = .ok ⟨y, m, d⟩ ∧
        EWSDate.from_string
          (String.mk (dateChars y m d ++ '+' :: (pad2 hh ++ ':' :: pad2 mm))) = .ok ⟨y, m, d⟩ ∧
        EWSDate.from_string
          (String.mk (dateChars y m d ++ '-' :: (pad2 hh ++ ':' :: pad2 mm))) = .ok ⟨y, m, d⟩ ∧
        EWSDate.from_string (String.mk (dateChars y m d)) = .ok ⟨y, m, d⟩) ∧
    (∀ (str : String) (r : EWSDate), EWSDate.from_string str = .ok r →
        (strptimeDateZ str.data).isSome = true ∨ (strptimeDatePlus str.data).isSome = true ∨
        (strptimeDateMinus str.data).isSome = true ∨
        (strptimeDateBare str.data).isSome = true) ∧
    (EWSDate.from_string "2020-06-01+02:00").map EWSDate.ewsformat = .ok "2020-06-01" := by
  refine ⟨?_, ?_, by rfl⟩
  · intro y m d hh mm hv hhh hmm
    refine ⟨?_, ?_, ?_, ?_⟩
    · unfold EWSDate.from_string
      simp only [data_mk]
      rw [if_pos (by rw [List.getLast?_append_cons]; rfl)]
      rw [strptimeDateZ_fmt y m d hv]
    · unfold EWSDate.from_string
      simp only [data_mk]
      rw [if_neg (by
        rw [show dateChars y m d ++ '+' :: (pad2 hh ++ ':' :: pad2 mm) =
          (dateChars y m d ++ '+' :: pad2 hh) ++ ':' :: pad2 mm by simp [List.append_assoc],
          getLast_colon_pad2]
        simp only [Option.some.injEq]
        exact digitChar_ne mm 'Z' (Or.inl rfl))]
      rw [if_pos (by
        rw [contains_iff_mem]
        exact List.mem_append.mpr (Or.inr (List.mem_cons_of_mem _
          (List.mem_append.mpr (Or.inr (List.mem_cons_self _ _))))))]
      rw [if_pos (by
        rw [contains_iff_mem]
        exact List.mem_append.mpr (Or.inr (List.mem_cons_self _ _)))]
      rw [strptimeDatePlus_fmt y m d hh mm hv hhh hmm]
    · unfold EWSDate.from_string
      simp only [data_mk]
      rw [if_neg (by
        rw [show dateChars y m d ++ '-' :: (pad2 hh ++ ':' :: pad2 mm) =
          (dateChars y m d ++ '-' :: pad2 hh) ++ ':' :: pad2 mm by simp [List.append_assoc],
          getLast_colon_pad2]
        simp only [Option.some.injEq]
        exact digitChar_ne mm 'Z' (Or.inl rfl))]
      rw [if_pos (by
        rw [contains_iff_mem]
        exact List.mem_append.mpr (Or.inr (List.mem_cons_of_mem _
          (List.mem_append.mpr (Or.inr (List.mem_cons_self _ _))))))]
      rw [if_neg (by
        rw [contains_iff_mem]
        intro hmem
        simp only [List.mem_append, List.mem_cons] at hmem
        rcases hmem with h | h | h | h | h <;>
          first
            | exact not_mem_dateChars y m d '+' (Or.inr (Or.inl rfl)) h
            | exact absurd h (by decide)
            | exact absurd (mem_pad2_isDigit hh '+' h) (by decide)
            | exact absurd (mem_pad2_isDigit mm '+' h) (by decide))]
      rw [strptimeDateMinus_fmt y m d hh mm hv hhh hmm]
    · unfold EWSDate.from_string
      simp only [data_mk]
      rw [if_neg (by
        rw [dateChars_getLast]
        simp only [Option.some.injEq]
        exact digitChar_ne d 'Z' (Or.inl rfl))]
      rw [if_neg (by
        rw [contains_iff_mem]
        exact not_mem_dateChars y m d ':' (Or.inl rfl))]
      rw [strptimeDateBare_fmt y m d hv]
  · intro str r hok
    unfold EWSDate.from_string at hok
    split at hok
    · split at hok
      · rename_i heq
        rw [heq]
        exact Or.inl rfl
      · exact absurd hok (by simp)
    · split at hok
      · split at hok
        · split at hok
          · rename_i heq
            rw [heq]
            exact Or.inr (Or.inl rfl)
          · exact absurd hok (by simp)
        · split at hok
          · rename_i heq
            rw [heq]
            exact Or.inr (Or.inr (Or.inl rfl))
          · exact absurd hok (by simp)
      · split at hok
        · rename_i heq
          rw [heq]
          exact Or.inr (Or.inr (Or.inr rfl))
        · exact absurd hok (by simp)

/-- C7 witness. -/
theorem C7_date_parse_witness :
    EWSDate.from_string "2020-06-01+02:00" = .ok ⟨2020, 6, 1⟩ :=
  (C7_date_parse.1 2020 6 1 2 0 (by decide) (by decide) (by decide)).2.1

/-- Two aware values with distinct `tzinfo`, both outside any fold window,
compare equal under the inherited `datetime.__eq__` exactly when they denote
the same UTC instant. -/
theorem pyEq_aware (n1 n2 : Naive) (t1 t2 : Tzinfo) (f1 f2 : Bool) (hne : t1 ≠ t2)
    (h1 : utcoffsetUs t1 n1 false = utcoffsetUs t1 n1 true)
    (h2 : utcoffsetUs t2 n2 false = utcoffsetUs t2 n2 true)
    (h3 : (usOfNaive n1 : Int) - utcoffsetUs t1 n1 f1 =
          (usOfNaive n2 : Int) - utcoffsetUs t2 n2 f2) :
    EWSDateTime.pyEq ⟨n1, some t1, f1⟩ ⟨n2, some t2, f2⟩ = true := by
  unfold EWSDateTime.pyEq
  dsimp only
  rw [if_neg (by simp only [beq_iff_eq]; exact hne)]
  rw [if_neg (by simp only [bne_iff_ne, ne_eq, Decidable.not_not]; exact h1)]
  rw [if_neg (by simp only [bne_iff_ne, ne_eq, Decidable.not_not]; exact h2)]
  simp only [beq_iff_eq]
  exact h3

/-- C2 counterexample: the 2020-10-25 02:30 Copenhagen wall-clock time lies in
the autumn fold window; formatting it and parsing the text back yields a
UTC-zoned value that CPython's inter-zone equality deems *unequal* to the
original (a fold-ambiguous value compares unequal to values in other zones),
so `parse(format(t)) == t` fails for this zoned, zero-subsecond `t`. -/
theorem C2_roundtrip_counterexample :
    (Except.bind
      (EWSDateTime.ewsformat ⟨⟨2020, 10, 25, 2, 30, 0, 0⟩, some (.ews localZone), false⟩)
      fun str => Except.map
        (fun r => r.pyEq ⟨⟨2020, 10, 25, 2, 30, 0, 0⟩, some (.ews localZone), false⟩)
        (EWSDateTime.from_string str)) = .ok false := by
  rfl

set_option maxHeartbeats 1000000 in
/-- C2 (amended): for every zoned TimestampValue with zero subseconds whose
fields are a valid datetime, whose zone offset at that wall-clock time does not
depend on the fold (the value is not inside a DST fold or gap window), and
whose UTC instant is representable, parsing the formatted text yields a value
equal to the original under the inherited `datetime.__eq__`.  (Inside a fold
window the comparison is unequal — see the counterexample.) -/
theorem C2_roundtrip (t : EWSDateTime) (z : EWSTimeZone)
    (hz : t.tzinfo = some (.ews z)) (hv : validNaive t.n) (hus : t.n.microsecond = 0)
    (hfold : zoneUtcOffsetMin z.key t.n false = zoneUtcOffsetMin z.key t.n true)
    (hlow : 0 ≤ (usOfNaive t.n : Int) - zoneUtcOffsetMin z.key t.n t.fold * 60000000) :
    (Except.bind t.ewsformat fun str =>
      Except.map (fun r => r.pyEq t) (EWSDateTime.from_string str)) = .ok true := by
  obtain ⟨n, tz, fold⟩ := t
  obtain ⟨y, m, d, h, mi, s, us⟩ := n
  dsimp only at hz hv hus hfold hlow ⊢
  subst hz
  subst hus
  by_cases hk : z.key = "UTC"
  · unfold EWSDateTime.ewsformat
    dsimp only
    simp only [Tzinfo.keyAttr, hk]
    rw [if_pos trivial]
    simp only [Except.bind]
    unfold EWSDateTime.from_string
    simp only [data_mk]
    rw [if_pos (fmtZChars_getLast _)]
    rw [strptimeDtZ_fmt y m d h mi s hv]
    simp only [Except.map, Except.ok.injEq]
    by_cases hzU : z = UTC
    · subst hzU
      unfold EWSDateTime.pyEq
      dsimp only
      rw [if_pos (by simp)]
      simp
    · refine pyEq_aware _ _ _ _ _ _ ?_ rfl ?_ ?_
      · intro hc
        injection hc with hh
        exact hzU hh.symm
      · simp only [utcoffsetUs, Tzinfo.utcoffsetMin, hk, zoneUtcOffsetMin_utc]
      · simp only [utcoffsetUs, Tzinfo.utcoffsetMin, UTC, hk, zoneUtcOffsetMin_utc]
  · have hoffb := zoneUtcOffsetMin_bounds z.key ⟨y, m, d, h, mi, s, 0⟩ fold
    have hup : (usOfNaive ⟨y, m, d, h, mi, s, 0⟩ : Int) -
        zoneUtcOffsetMin z.key ⟨y, m, d, h, mi, s, 0⟩ fold * 60000000 < (usMax : Int) := by
      have := usOfNaive_lt_usMax ⟨y, m, d, h, mi, s, 0⟩ hv
      omega
    unfold EWSDateTime.ewsformat
    dsimp only
    simp only [Tzinfo.keyAttr]
    rw [if_neg hk]
    simp only [Except.bind, Tzinfo.utcoffsetMin]
    unfold EWSDateTime.from_string
    simp only [data_mk]
    rw [if_neg (by
      rw [isoChars_getLast]
      simp only [Option.some.injEq]
      exact digitChar_ne _ 'Z' (Or.inl rfl))]
    rw [if_neg (by rw [isoChars_length]; omega)]
    rw [fromisoChars_iso y m d h mi s _ hv hoffb.1 (by omega)]
    unfold pyDatetimeAstimezoneUTC
    simp only [pyDatetimeOffsetUs, utcoffsetUs, Tzinfo.utcoffsetMin]
    rw [if_pos ⟨hlow, hup⟩]
    unfold EWSDateTime.from_datetime
    simp only [Except.map, Except.ok.injEq]
    refine pyEq_aware _ _ _ _ _ _ ?_ rfl ?_ ?_
    · intro hc
      injection hc with hh
      exact hk (by rw [← hh]; rfl)
    · simp only [utcoffsetUs, Tzinfo.utcoffsetMin, hfold]
    · simp only [utcoffsetUs, Tzinfo.utcoffsetMin, UTC, zoneUtcOffsetMin_utc]
      rw [usOfNaive_usToNaive, Int.toNat_of_nonneg hlow]
      omega

/-- C2 witness: a winter Copenhagen value outside any fold window round-trips
to an equal value. -/
theorem C2_roundtrip_witness :
    (Except.bind
      (EWSDateTime.ewsformat ⟨⟨2009, 1, 15, 13, 45, 56, 0⟩, some (.ews localZone), false⟩)
      fun str => Except.map
        (fun r => r.pyEq ⟨⟨2009, 1, 15, 13, 45, 56, 0⟩, some (.ews localZone), false⟩)
        (EWSDateTime.from_string str)) = .ok true :=
  C2_roundtrip ⟨⟨2009, 1, 15, 13, 45, 56, 0⟩, some (.ews localZone), false⟩ localZone
    rfl (by decide) rfl (by decide) (by decide)
